import Mathlib

/-!
Shallow embedding of the flow-test-rig instrument control layer
(src/periphs/utils.py, src/periphs/scale.py, src/periphs/alicat.py,
src/machine.py, src/models.py) and proofs about it.

Conventions used throughout:
* Python floats are modelled as rationals; the numeric strings appearing on
  the wire protocols are plain sign/digits/dot decimals, so this is exact.
* Python exceptions are modelled with an explicit error type `PyErr`;
  a Python function that can raise is embedded as `Except PyErr _`,
  a Python function that swallows its exceptions and returns None is
  embedded as a total function into `Option _`.
* Effects (queue puts, sleeps, serial writes) are modelled as explicit
  trace elements, so that theorems can speak about what a loop body does.
* String manipulation is implemented by structural recursion over the
  character list, mirroring what the corresponding Python method does.
-/

namespace FlowRig

/-- Python exception classes that the embedded code distinguishes. -/
inductive PyErr
  | valueError
  | typeError
  deriving DecidableEq, Repr

/-- Accumulator pass of Python str.split() with no argument. -/
def splitWsAux : List Char → List Char → List String
  | [], acc => if acc.isEmpty then [] else [String.mk acc.reverse]
  | c :: rest, acc =>
    if c.isWhitespace then
      if acc.isEmpty then splitWsAux rest []
      else String.mk acc.reverse :: splitWsAux rest []
    else splitWsAux rest (c :: acc)

/-- Python str.split() with no argument: split on whitespace runs, ignoring
leading and trailing whitespace (so a preceding .strip() is a no-op). -/
def pySplit (s : String) : List String :=
  splitWsAux s.data []

/-- Python str.lower(), per character (the protocol lines are ASCII). -/
def pyLower (s : String) : List Char :=
  s.data.map Char.toLower

/-- Python str.strip() with no argument: drop whitespace at both ends. -/
def trimS (s : String) : String :=
  String.mk
    (((s.data.dropWhile Char.isWhitespace).reverse.dropWhile
      Char.isWhitespace).reverse)

/-- Value of a digit list read in base 10. -/
def digitsNat (cs : List Char) : ℕ :=
  cs.foldl (fun acc c => acc * 10 + (c.toNat - 48)) 0

/-- The digit-level part of Python float(s): optional sign, digits with at
most one dot, at least one digit; any other string raises ValueError
(modelled as `none`).  Returns the sign, the numerator scaled by 10 to the
number of decimal places, and that number of places.  The wire protocols in
this repository only ever produce strings of this shape, so exotic Python
float syntax (exponents, inf, nan, underscores) does not arise and is not
modelled. -/
def pyFloatRaw (s : String) : Option (Bool × ℕ × ℕ) :=
  let signRest : Bool × List Char :=
    match s.data with
    | '+' :: r => (false, r)
    | '-' :: r => (true, r)
    | r => (false, r)
  let neg := signRest.1
  let rest := signRest.2
  if rest.any (fun c => !(c.isDigit || c == '.')) then none
  else
    match (rest.filter (fun c => c == '.')).length with
    | 0 => if rest.isEmpty then none else some (neg, digitsNat rest, 0)
    | 1 =>
      let ip := rest.takeWhile (fun c => c != '.')
      let fp := (rest.dropWhile (fun c => c != '.')).tail
      if ip.isEmpty ∧ fp.isEmpty then none
      else some (neg, digitsNat ip * 10 ^ fp.length + digitsNat fp, fp.length)
    | _ => none

/-- Python float(s) on a string, as a rational. -/
def pyFloat (s : String) : Option ℚ :=
  (pyFloatRaw s).map fun r =>
    (if r.1 then -1 else 1) * (r.2.1 : ℚ) / (10 ^ r.2.2 : ℚ)

/-- Python bytes.decode(...).rstrip of carriage return and newline,
as applied by SimpleSerialDevice.query to a successful read. -/
def rstripCRLF (s : String) : String :=
  String.mk ((s.data.reverse.dropWhile (fun c => c = '\r' ∨ c = '\n')).reverse)

/-- Whether an Except value is a success. -/
def exceptOk {ε α : Type} : Except ε α → Bool
  | .ok _ => true
  | .error _ => false

/-! ## Scale codec (src/periphs/scale.py) -/

/-- Values of the ADEK30KL_DATA_HEADERS StrEnum. -/
def headerValues : List String := ["st", "qt", "us", "ol"]

/-- Values of the ADEK30KL_DATA_UNITS StrEnum. -/
def unitValues : List String := ["g", "kg", "pc", "%", "oz", "lb", "ozt", "tl"]

/-- Decoded scale telegram (ADEK30KL_DF): header, value, unit. -/
structure ADEK30KL_DF where
  header : String
  value : ℚ
  unit : String
  deriving DecidableEq, Repr

/-- One character class of the data_packet_pattern value section: [0-9.] -/
def isValChar (c : Char) : Prop := c.isDigit ∨ c = '.'

instance (c : Char) : Decidable (isValChar c) := by unfold isValChar; infer_instance

/-- One character class of the data_packet_pattern unit section: [a-zA-Z\s%] -/
def isUnitChar (c : Char) : Prop := c.isAlpha ∨ c.isWhitespace ∨ c = '%'

instance (c : Char) : Decidable (isUnitChar c) := by unfold isUnitChar; infer_instance

/-- Attempt to match the fixed-width regex
[a-zA-Z]\x7b2\x7d,[+-][0-9.]\x7b8\x7d[a-zA-Z\s%]\x7b3\x7d
at the head of the character list; all quantifiers are fixed width, so the
match, when it exists, is the 15 leading characters. -/
def matchAt (cs : List Char) : Option (List Char) :=
  match cs with
  | a :: b :: c :: d :: rest =>
    if a.isAlpha ∧ b.isAlpha ∧ c = ',' ∧ (d = '+' ∨ d = '-') then
      let v := rest.take 8
      let u := (rest.drop 8).take 3
      if v.length = 8 ∧ v.all (fun x => decide (isValChar x)) ∧
         u.length = 3 ∧ u.all (fun x => decide (isUnitChar x)) then
        some (a :: b :: c :: d :: (v ++ u))
      else none
    else none
  | _ => none

/-- Python re.search over the string: leftmost position at which the
fixed-width pattern matches. -/
def reSearch : List Char → Option (List Char)
  | [] => none
  | c :: t =>
    match matchAt (c :: t) with
    | some g => some g
    | none => reSearch t

/-- ADEK30KL_DF.parse_line: empty line raises TypeError; then searches the
lowered line for the telegram pattern; no match or a bad decimal raises
ValueError; a matched telegram of wrong length raises ValueError; the
matched group splits at its single comma into the 2-character header and a
12-character right side whose first 9 characters are float()ed and whose
remainder is stripped into the unit; finally the dataclass post-init raises
TypeError when the header or unit is outside its closed enumeration. -/
def ADEK30KL_DF.parse_line (line : String) : Except PyErr ADEK30KL_DF :=
  if line = "" then .error .typeError
  else
    match reSearch (pyLower line) with
    | none => .error .valueError
    | some g =>
      if g.length ≠ 15 then .error .valueError
      else
        match pyFloat (String.mk ((g.drop 3).take 9)) with
        | none => .error .valueError
        | some v =>
          if String.mk (g.take 2) ∈ headerValues ∧
             trimS (String.mk ((g.drop 3).drop 9)) ∈ unitValues then
            .ok ⟨String.mk (g.take 2), v, trimS (String.mk ((g.drop 3).drop 9))⟩
          else .error .typeError

/-- ADEK30KL.fetch_data given the serial query result: a missing line returns
no reading; parse failures are caught and logged, returning no reading.
It never raises to its caller. -/
def ADEK30KL.fetch_data (line : Option String) : Option ADEK30KL_DF :=
  match line with
  | none => none
  | some l =>
    match ADEK30KL_DF.parse_line l with
    | .ok d => some d
    | .error _ => none

/-! ## Alicat codecs (src/periphs/alicat.py) -/

/-- Decoded Alicat pressure reading (AlicatBaseDF, minus the timestamp). -/
structure AlicatBaseDF where
  unit_id : String
  pressure : Option ℚ
  deriving DecidableEq, Repr

/-- Decoded Alicat mass-flow reading (AlicatMassFlowDF, minus timestamp). -/
structure AlicatMassFlowDF where
  unit_id : String
  pressure : Option ℚ
  temp : Option ℚ
  vflow : Option ℚ
  mflow : Option ℚ
  setpoint : Option ℚ
  tflow : Option ℚ
  gas : Option String
  status : Option String
  deriving DecidableEq, Repr

/-- AlicatBaseDF.parse_line: tokenize; fewer than 2 tokens raises ValueError;
token 0 is the unit id, token 1 the pressure string.  The dataclass
post-init coerces the pressure with float(); a ValueError there is caught
and leaves the field as None. -/
def AlicatBaseDF.parse_line (raw_line : String) : Except PyErr AlicatBaseDF :=
  match pySplit raw_line with
  | p0 :: p1 :: _ => .ok ⟨p0, pyFloat p1⟩
  | _ => .error .valueError

/-- Token i of the line, mapped to None when absent or empty
(parts[i] if len(parts) > i and parts[i] != "" else None). -/
def tokOpt (parts : List String) (i : ℕ) : Option String :=
  match parts.get? i with
  | some s => if s = "" then none else some s
  | none => none

/-- Token i of the line with no emptiness check
(parts[i] if len(parts) > i else None), used for gas and status. -/
def tokRaw (parts : List String) (i : ℕ) : Option String :=
  parts.get? i

/-- The float() coercion that AlicatBaseDF post-init applies to each
float-typed field: on a string, a ValueError is caught and yields None;
on None itself, float(None) raises TypeError, which the post-init does NOT
catch (it only catches ValueError), so construction fails. -/
def coerceFloatField : Option String → Except PyErr (Option ℚ)
  | none => .error .typeError
  | some s => .ok (pyFloat s)

/-- AlicatMassFlowDF.parse_line: tokenize; fewer than 4 tokens raises
ValueError; otherwise tokens 2..8 are assigned positionally and the
dataclass post-init runs the float() coercion over the float-typed fields
temp, vflow, mflow, setpoint, tflow in declaration order (pressure was
already coerced by the base parse).  gas and status are string fields and
are not coerced. -/
def AlicatMassFlowDF.parse_line (raw_line : String) :
    Except PyErr AlicatMassFlowDF :=
  let parts := pySplit raw_line
  if parts.length < 4 then .error .valueError
  else
    match AlicatBaseDF.parse_line raw_line with
    | .error e => .error e
    | .ok base => do
      let temp ← coerceFloatField (tokOpt parts 2)
      let vflow ← coerceFloatField (tokOpt parts 3)
      let mflow ← coerceFloatField (tokOpt parts 4)
      let setpoint ← coerceFloatField (tokOpt parts 5)
      let tflow ← coerceFloatField (tokOpt parts 6)
      .ok ⟨base.unit_id, base.pressure, temp, vflow, mflow, setpoint, tflow,
           tokRaw parts 7, tokRaw parts 8⟩

/-- AlicatFlowController.fetch_data given the serial query result: when the
query produced no line, parse_line(None) raises inside the try and is
caught, returning no reading; parse failures likewise.  Never raises. -/
def AlicatFlowController.fetch_data (line : Option String) :
    Option AlicatMassFlowDF :=
  match line with
  | none => none
  | some l =>
    match AlicatMassFlowDF.parse_line l with
    | .ok d => some d
    | .error _ => none

/-- AlicatDiffPressure.fetch_data given the serial query result; same
error discipline as the flow controller. -/
def AlicatDiffPressure.fetch_data (line : Option String) :
    Option AlicatBaseDF :=
  match line with
  | none => none
  | some l =>
    match AlicatBaseDF.parse_line l with
    | .ok d => some d
    | .error _ => none

/-- AlicatFlowController.write_setpoint, given the serial query result:
returns True exactly when a line came back, False otherwise (exceptions are
caught and also yield False; the embedded query never raises). -/
def AlicatFlowController.write_setpoint (resp : Option String) : Bool :=
  resp.isSome

/-! ## Orchestrator snapshot update (src/machine.py, TestRig.update_metrics) -/

/-- The aggregated snapshot (models.TestRigDF): every sub-reading field is
Optional with default None, so a TestRigDF can be constructed with missing
readings. -/
structure TestRigDF where
  time : ℚ
  mass : Option ADEK30KL_DF
  flow : Option AlicatMassFlowDF
  low_dp : Option AlicatBaseDF
  high_dp : Option AlicatBaseDF
  deriving DecidableEq, Repr

/-- TestRig.update_metrics: awaits the four fetches in order (mass, flow,
low_dp, high_dp) inside one try block; if any of them raises, the except
arm logs and self metrics is left untouched; if none raises, a fresh
TestRigDF built from whatever the fetches returned (possibly None readings)
is installed.  Each fetch argument is the outcome of the corresponding
await: `Except.error` = the call raised, `Except.ok r` = it returned r. -/
def TestRig.update_metrics (old : Option TestRigDF) (t : ℚ)
    (massF : Except PyErr (Option ADEK30KL_DF))
    (flowF : Except PyErr (Option AlicatMassFlowDF))
    (lowF : Except PyErr (Option AlicatBaseDF))
    (highF : Except PyErr (Option AlicatBaseDF)) : Option TestRigDF :=
  match massF, flowF, lowF, highF with
  | .ok m, .ok f, .ok l, .ok h => some ⟨t, m, f, l, h⟩
  | _, _, _, _ => old

/-! ## Supervisory monitor (src/machine.py, TestRig.do_supervisory_control) -/

/-- Awaited effects of one pass of the supervisory while-loop body: an
event_q.put of a SetpointEvent (value, retry, timestamp) or an
asyncio.sleep.  These are the only suspension points in the body. -/
inductive SupEffect
  | put (value : ℚ) (retry : Bool) (timestamp : ℤ)
  | sleep (d : ℚ)
  deriving DecidableEq, Repr

/-- One iteration of the do_supervisory_control while-loop, given the
configured low_dp full_scale_max, the current metrics value, the clock
value (time.time()) and the stop_requested state.  Returns the list of
awaited effects of this iteration, in order, and the new stop_requested.

Faithful points: the shutoff point is full_scale_max - full_scale_max*0.05;
a None metrics hits `continue` before the try block and before the sleep;
inside the try, a missing low_dp reading (AttributeError on None.pressure)
or a None pressure (TypeError in the comparison) is caught and only logged;
an enqueued SetpointEvent carries retry=True, value=0 and a timestamp of
int(time.time()), which also becomes the new stop_requested; the 1 second
sleep runs after the try on every non-continue iteration. -/
def TestRig.do_supervisory_control_iter (full_scale_max : ℚ)
    (metrics : Option TestRigDF) (now : ℚ) (stop_requested : ℚ) :
    List SupEffect × ℚ :=
  let shutoff_point := full_scale_max - full_scale_max * 0.05
  match metrics with
  | none => ([], stop_requested)
  | some m =>
    match m.low_dp with
    | none => ([.sleep 1], stop_requested)
    | some dp =>
      match dp.pressure with
      | none => ([.sleep 1], stop_requested)
      | some p =>
        if p ≥ shutoff_point then
          if now - stop_requested > 30 then
            ([.put 0 true (Int.floor now), .sleep 1],
             ((Int.floor now : ℤ) : ℚ))
          else ([.sleep 1], stop_requested)
        else ([.sleep 1], stop_requested)

/-- The queue puts among a list of supervisory effects. -/
def putsOf (l : List SupEffect) : List SupEffect :=
  l.filter fun e =>
    match e with
    | .put _ _ _ => true
    | .sleep _ => false

/-- Fold the supervisory iteration over a list of (metrics, clock) ticks,
starting from a stop_requested state, collecting each tick's effects. -/
def runSup (full_scale_max : ℚ) :
    ℚ → List (Option TestRigDF × ℚ) → List (List SupEffect)
  | _, [] => []
  | last, (m, now) :: rest =>
    let r := TestRig.do_supervisory_control_iter full_scale_max m now last
    r.1 :: runSup full_scale_max r.2 rest

/-- A snapshot whose low_dp reading carries pressure p (the only part of the
snapshot the supervisory body reads). -/
def mkSnapLow (p : ℚ) : TestRigDF :=
  ⟨0, none, none, some ⟨"A", some p⟩, none⟩

/-! ## Event queue handler (src/machine.py, event_handler;
     src/models.py, Event) -/

/-- The Event tagged union of models.py, carrying the retry flag. -/
inductive RigEvent
  | stateChange (new_state : String) (retry : Bool)
  | stopButton (retry : Bool)
  | changeSetpoint (value : ℚ) (retry : Bool)
  | nullEvent (retry : Bool)
  deriving DecidableEq, Repr

/-- The retry flag of an event. -/
def RigEvent.retry : RigEvent → Bool
  | .stateChange _ r => r
  | .stopButton r => r
  | .changeSetpoint _ r => r
  | .nullEvent r => r

/-- TestRig.change_setpoint: awaits self.flow.write_setpoint(val) and then
falls off the end of the function body, so it returns Python None
regardless of the boolean write_setpoint produced.  The first component
records the discarded write_setpoint result, the second is the value the
caller receives. -/
def TestRig.change_setpoint (resp : Option String) : Bool × Option Bool :=
  (AlicatFlowController.write_setpoint resp, none)

/-- Result of one iteration of the event_handler loop for one dequeued
event: the final Python `status` variable (None, True or False), whether
the event was put back on the queue, the value passed to change_setpoint
when the event was a setpoint change, and any events the handler itself
enqueued. -/
structure HandleResult where
  status : Option Bool
  requeued : Bool
  setpointSent : Option ℚ
  enqueued : List RigEvent
  deriving DecidableEq, Repr

/-- One iteration of the event_handler loop (src/machine.py lines 12-56)
on a dequeued event.  `resp` is the serial response that a setpoint write
would observe.  `status` starts as None; the CHANGE_SETPOINT arm assigns it
the return value of TestRig.change_setpoint; STOP_BUTTON enqueues a
StateChange(IDLE) event; the STATE_CHANGE arm assigns True except for the
FAULT and IDLE placeholder branches; the catch-all arm only logs.
Afterwards the event is re-enqueued exactly when `status == False` in the
Python sense (None compares unequal to False) and the event's retry flag is
set. -/
def event_handler_iter (ev : RigEvent) (resp : Option String) : HandleResult :=
  let statusAndActs : Option Bool × Option ℚ × List RigEvent :=
    match ev with
    | .stateChange ns _ =>
      if ns = "fault" then (none, none, [])
      else if ns = "idle" then (none, none, [])
      else (some true, none, [])
    | .stopButton _ => (none, none, [.stateChange "idle" false])
    | .changeSetpoint v _ => ((TestRig.change_setpoint resp).2, some v, [])
    | .nullEvent _ => (none, none, [])
  let status := statusAndActs.1
  { status := status
    requeued := (status = some false : Bool) && ev.retry
    setpointSent := statusAndActs.2.1
    enqueued := statusAndActs.2.2 }

/-! ## Real-device construction (src/machine.py, TestRig._load_real_devices;
     src/models.py, TestRigConfig.__post_init__) -/

/-- Which serial link a device role ended up bound to. -/
inductive LinkChoice
  | own
  | shared
  deriving DecidableEq, Repr

/-- The four constructed device bindings. -/
structure RigDevices where
  mass : LinkChoice
  flow : LinkChoice
  high_dp : LinkChoice
  low_dp : LinkChoice
  deriving DecidableEq, Repr

/-- TestRig._load_real_devices, abstracted over which serial configurations
are present (`some port` = a dedicated block is configured).  The scale is
always built on its own serial device from config.mass.serial (a required
field).  Each Alicat role takes its dedicated link when configured, else
the shared Alicat link when configured, else raises a RuntimeError naming
the role; the roles are resolved in the order flow, high_dp, low_dp. -/
def TestRig.load_real_devices (massSer : String)
    (flowSer highSer lowSer sharedSer : Option String) :
    Except String RigDevices :=
  let _ := massSer
  match
    (match flowSer, sharedSer with
     | some _, _ => Except.ok LinkChoice.own
     | none, some _ => Except.ok LinkChoice.shared
     | none, none =>
       Except.error "No serial device available for flow controller") with
  | .error e => .error e
  | .ok flowLink =>
    match
      (match highSer, sharedSer with
       | some _, _ => Except.ok LinkChoice.own
       | none, some _ => Except.ok LinkChoice.shared
       | none, none =>
         Except.error
           "No serial device available for high range pressure sensor") with
    | .error e => .error e
    | .ok highLink =>
      match
        (match lowSer, sharedSer with
         | some _, _ => Except.ok LinkChoice.own
         | none, some _ => Except.ok LinkChoice.shared
         | none, none =>
           Except.error
             "No serial device available for low range pressure sensor") with
      | .error e => .error e
      | .ok lowLink => .ok ⟨.own, flowLink, highLink, lowLink⟩

/-- The TestRigConfig post-init consistency check: at least one Alicat has
serial access, meaning the shared block exists or all three per-device
blocks exist. -/
def TestRigConfig.post_init_ok
    (flowSer highSer lowSer sharedSer : Option String) : Bool :=
  sharedSer.isSome || (flowSer.isSome && highSer.isSome && lowSer.isSome)

/-! ## Serial transport retry model (src/periphs/utils.py,
     SimpleSerialDevice.query) -/

/-- What one loop attempt of query observes on an open connection. -/
inductive Outcome
  | timeout
  | serialErr
  | emptyRead
  | success (raw : String)
  deriving DecidableEq, Repr

/-- Observable actions of the query loop: a write of the command payload on
the wire, the fixed backoff sleep between attempts, the AttributeError hit
when an attempt dereferences the cleared connection, and a reopen of the
port.  The embedded loop never emits `reopen` because the source only calls
_ensure_open before the loop, never inside it. -/
inductive QAct
  | write
  | sleepBackoff
  | attrError
  | reopen
  deriving DecidableEq, Repr

/-- Whether a trace action is a loop attempt that entered the try block. -/
def isAttempt : QAct → Bool
  | .write => true
  | .attrError => true
  | .sleepBackoff => false
  | .reopen => false

/-- The `for attempt in range(effective_retries + 1)` loop of query, by
remaining attempt count.  `conn` is whether self._ser is a live object
(False after a serial error set it to None).  The script supplies each
attempt's outcome; outcomes past the end of the script behave as timeouts.

Faithful points: with conn cleared, the write raises AttributeError, caught
by the blanket except arm, which returns None immediately — no reopen
happens inside the loop.  A timeout keeps the connection.  A serial error
clears it.  An empty read falls through and retries.  A successful raw line
is decoded and returned with trailing CR/LF stripped.  The backoff sleep
runs after every attempt except the last one. -/
def queryLoop : Bool → List Outcome → ℕ → Option String × List QAct
  | _, _, 0 => (none, [])
  | false, _, _ + 1 => (none, [.attrError])
  | true, [], n + 1 =>
    let r := queryLoop true [] n
    (r.1, .write :: ((if 0 < n then [QAct.sleepBackoff] else []) ++ r.2))
  | true, .timeout :: rest, n + 1 =>
    let r := queryLoop true rest n
    (r.1, .write :: ((if 0 < n then [QAct.sleepBackoff] else []) ++ r.2))
  | true, .emptyRead :: rest, n + 1 =>
    let r := queryLoop true rest n
    (r.1, .write :: ((if 0 < n then [QAct.sleepBackoff] else []) ++ r.2))
  | true, .serialErr :: rest, n + 1 =>
    let r := queryLoop false rest n
    (r.1, .write :: ((if 0 < n then [QAct.sleepBackoff] else []) ++ r.2))
  | true, .success raw :: _, _ + 1 => (some (rstripCRLF raw), [.write])

/-- SimpleSerialDevice.query: _ensure_open runs once up front (returning
None when the port cannot be opened), then the attempt loop runs
retries + 1 times. -/
def SimpleSerialDevice.query (openOk : Bool) (retries : ℕ)
    (script : List Outcome) : Option String × List QAct :=
  if openOk = false then (none, []) else queryLoop true script (retries + 1)

/-- Number of loop attempts recorded in a trace. -/
def countAttempts (tr : List QAct) : ℕ :=
  tr.countP isAttempt

/-! ## Transport mutual exclusion model (src/periphs/utils.py, query;
     the asyncio.Lock is acquired inside the per-attempt loop) -/

/-- The two concurrent query calls. -/
inductive QTask
  | A
  | B
  deriving DecidableEq, Repr

/-- Scheduler-visible events of a query call: lock acquisition, the wire
write of attempt a, the end of attempt a's read (response or timeout), and
lock release.  Between a release and the next acquisition the call sits in
its backoff sleep, where the other call may run. -/
inductive TEv
  | acq (t : QTask)
  | write (t : QTask) (a : ℕ)
  | readEnd (t : QTask) (a : ℕ)
  | rel (t : QTask)
  deriving DecidableEq, Repr

/-- Which task an event belongs to. -/
def TEv.task : TEv → QTask
  | .acq t => t
  | .write t _ => t
  | .readEnd t _ => t
  | .rel t => t

/-- One attempt of query as executed under `async with self._lock`:
acquire, write, finish the read, release. -/
def attemptEvs (t : QTask) (a : ℕ) : List TEv :=
  [.acq t, .write t a, .readEnd t a, .rel t]

/-- The event sequence of one query call with n attempts: the per-attempt
lock section repeated, with the lock free between attempts (the backoff
sleep sits between rel and the next acq). -/
def taskSeq (t : QTask) (n : ℕ) : List TEv :=
  (List.range n).flatMap (attemptEvs t)

/-- All interleavings of two event sequences, with explicit fuel (the
combined length always suffices, see interleavings below). -/
def interleavingsFuel : ℕ → List TEv → List TEv → List (List TEv)
  | 0, xs, ys => [xs ++ ys]
  | _ + 1, [], ys => [ys]
  | _ + 1, x :: xs, [] => [x :: xs]
  | f + 1, x :: xs, y :: ys =>
    (interleavingsFuel f xs (y :: ys)).map (x :: ·) ++
      (interleavingsFuel f (x :: xs) ys).map (y :: ·)

/-- All interleavings of two event sequences: every schedule the
cooperative scheduler could produce for two concurrent calls. -/
def interleavings (xs ys : List TEv) : List (List TEv) :=
  interleavingsFuel (xs.length + ys.length) xs ys

/-- Lock discipline of asyncio.Lock: an acquisition only succeeds while no
one holds the lock, a release is by the holder.  Writes and reads are not
constrained here; their protection is derived from the program order of
taskSeq. -/
def lockValid : Option QTask → List TEv → Bool
  | _, [] => true
  | holder, e :: rest =>
    match e with
    | .acq t => holder.isNone && lockValid (some t) rest
    | .rel t => if holder = some t then lockValid none rest else false
    | .write _ _ => lockValid holder rest
    | .readEnd _ _ => lockValid holder rest

/-- Within-attempt atomicity: scanning the schedule, between a write of
task t and the readEnd of the same attempt no event of the other task
occurs. -/
def atomicWithin : Option QTask → List TEv → Bool
  | _, [] => true
  | some t, e :: rest =>
    if e.task ≠ t then false
    else
      match e with
      | .readEnd _ _ => atomicWithin none rest
      | _ => atomicWithin (some t) rest
  | none, e :: rest =>
    match e with
    | .write t _ => atomicWithin (some t) rest
    | _ => atomicWithin none rest

/-- Index of the first wire write of task t in a schedule. -/
def firstWriteIdx (t : QTask) (s : List TEv) : Option ℕ :=
  s.findIdx? fun e =>
    match e with
    | .write t' _ => t' = t
    | _ => false

/-- Index of the last read completion of task t in a schedule. -/
def lastReadIdx (t : QTask) (s : List TEv) : Option ℕ :=
  match s.reverse.findIdx? fun e =>
      match e with
      | .readEnd t' _ => t' = t
      | _ => false with
  | some i => some (s.length - 1 - i)
  | none => none

/-- The whole-cycle exclusivity the claim asserts: one call's first write
starts only after the other call's complete response cycle — through the
last of its retry attempts — has finished. -/
def wholeCycleExclusive (s : List TEv) : Bool :=
  match firstWriteIdx .B s, lastReadIdx .A s,
        firstWriteIdx .A s, lastReadIdx .B s with
  | some wb, some ra, some wa, some rb => (ra < wb) || (rb < wa)
  | _, _, _, _ => true

/-- A concrete lock-valid schedule: call A runs attempt 0, call B runs its
whole single attempt during A's backoff sleep, then A runs attempt 1. -/
def crossSchedule : List TEv :=
  attemptEvs .A 0 ++ attemptEvs .B 0 ++ attemptEvs .A 1

/-- A fully populated snapshot, used as the previously installed one. -/
def snapFull : TestRigDF :=
  ⟨0, some ⟨"st", 100, "g"⟩,
   some ⟨"A", some 1, some 20, some 45, some 1000, some 1000, some 12500,
         some "Air", some "HLD"⟩,
   some ⟨"B", some 1⟩, some ⟨"C", some 2⟩⟩

/-! ## Helper lemmas -/

/-- Every match of the fixed-width telegram pattern has length 15. -/
theorem matchAt_length : ∀ {cs g : List Char}, matchAt cs = some g →
    g.length = 15 := by
  intro cs g h
  rcases cs with _ | ⟨a, cs⟩
  · simp [matchAt] at h
  rcases cs with _ | ⟨b, cs⟩
  · simp [matchAt] at h
  rcases cs with _ | ⟨c, cs⟩
  · simp [matchAt] at h
  rcases cs with _ | ⟨d, rest⟩
  · simp [matchAt] at h
  simp only [matchAt] at h
  split_ifs at h with h1 h2
  obtain ⟨hv, -, hu, -⟩ := h2
  injection h with h
  subst h
  simp [List.length_append, hv, hu]

/-- Every result of the pattern search has length 15. -/
theorem reSearch_length : ∀ {cs g : List Char}, reSearch cs = some g →
    g.length = 15 := by
  intro cs
  induction cs with
  | nil => intro g h; simp [reSearch] at h
  | cons c t ih =>
    intro g h
    cases hm : matchAt (c :: t) with
    | some gm =>
      simp only [reSearch, hm] at h
      injection h with h
      subst h
      exact matchAt_length hm
    | none =>
      simp only [reSearch, hm] at h
      exact ih h

/-- The attempt loop of query enters the try block at most as many times as
it has attempts. -/
theorem queryLoop_attempts_le : ∀ (n : ℕ) (conn : Bool)
    (script : List Outcome), countAttempts (queryLoop conn script n).2 ≤ n := by
  intro n
  induction n with
  | zero => intro conn script; cases conn <;> simp [queryLoop, countAttempts]
  | succ n ih =>
    intro conn script
    cases conn with
    | false => simp [queryLoop, countAttempts, isAttempt]
    | true =>
      cases script with
      | nil =>
        have h := ih true []
        simp only [queryLoop, countAttempts] at h ⊢
        split_ifs <;>
          simp [List.countP_cons, List.countP_append, isAttempt] <;> omega
      | cons oc rest =>
        cases oc with
        | success raw => simp [queryLoop, countAttempts, isAttempt]
        | timeout =>
          have h := ih true rest
          simp only [queryLoop, countAttempts] at h ⊢
          split_ifs <;>
            simp [List.countP_cons, List.countP_append, isAttempt] <;> omega
        | emptyRead =>
          have h := ih true rest
          simp only [queryLoop, countAttempts] at h ⊢
          split_ifs <;>
            simp [List.countP_cons, List.countP_append, isAttempt] <;> omega
        | serialErr =>
          have h := ih false rest
          simp only [queryLoop, countAttempts] at h ⊢
          split_ifs <;>
            simp [List.countP_cons, List.countP_append, isAttempt] <;> omega

/-- The supervisory iteration at clock 1000 with reading 96 and initial
stop_requested 0 enqueues the shutoff and records 1000. -/
theorem supIter1000 :
    TestRig.do_supervisory_control_iter 100 (some (mkSnapLow 96)) 1000 0 =
      ([.put 0 true 1000, .sleep 1], 1000) := by
  simp only [TestRig.do_supervisory_control_iter, mkSnapLow]
  rw [if_pos (by norm_num), if_pos (by norm_num)]
  norm_num

/-- Ten seconds after a shutoff request, the same reading is suppressed. -/
theorem supIter1010 :
    TestRig.do_supervisory_control_iter 100 (some (mkSnapLow 96)) 1010 1000 =
      ([.sleep 1], 1000) := by
  simp only [TestRig.do_supervisory_control_iter, mkSnapLow]
  rw [if_pos (by norm_num), if_neg (by norm_num)]

/-- Thirty-one seconds after a shutoff request, a second one is enqueued. -/
theorem supIter1031 :
    TestRig.do_supervisory_control_iter 100 (some (mkSnapLow 96)) 1031 1000 =
      ([.put 0 true 1031, .sleep 1], 1031) := by
  simp only [TestRig.do_supervisory_control_iter, mkSnapLow]
  rw [if_pos (by norm_num), if_pos (by norm_num)]
  norm_num

/-! ## Claim theorems -/

/-- C1, counterexample: with a full Snapshot installed, a cycle in which the
flow fetch fails to produce a reading (the driver catches the parse failure
of the short line "A" and returns None, without raising) still installs a
new Snapshot: the installed value has the flow reading missing and the
other three present, and differs from the previously installed Snapshot.
This refutes the claim that a failed fetch leaves the previous Snapshot
unchanged and that a partial Snapshot is never installed. -/
theorem C1_counterexample :
    AlicatFlowController.fetch_data (some "A") = none ∧
    TestRig.update_metrics (some snapFull) 1 (.ok snapFull.mass)
        (.ok (AlicatFlowController.fetch_data (some "A")))
        (.ok snapFull.low_dp) (.ok snapFull.high_dp) =
      some ⟨1, snapFull.mass, none, snapFull.low_dp, snapFull.high_dp⟩ ∧
    some (⟨1, snapFull.mass, none, snapFull.low_dp, snapFull.high_dp⟩ :
        TestRigDF) ≠ some snapFull := by
  refine ⟨rfl, rfl, ?_⟩
  simp [snapFull]

/-- C1, amended: if any one of the four per-device fetch awaits raises, the
update is abandoned in its entirety and the previously installed Snapshot
remains the current one; a fetch that merely returns no reading without
raising, however, leads to a new Snapshot with that reading missing (see
the counterexample). -/
theorem C1_amended_raise_preserves :
    ∀ (old : Option TestRigDF) (t : ℚ) (e : PyErr)
      (mf : Except PyErr (Option ADEK30KL_DF))
      (ff : Except PyErr (Option AlicatMassFlowDF))
      (lf hf : Except PyErr (Option AlicatBaseDF)),
      TestRig.update_metrics old t (.error e) ff lf hf = old ∧
      TestRig.update_metrics old t mf (.error e) lf hf = old ∧
      TestRig.update_metrics old t mf ff (.error e) hf = old ∧
      TestRig.update_metrics old t mf ff lf (.error e) = old := by
  intro old t e mf ff lf hf
  refine ⟨?_, ?_, ?_, ?_⟩ <;> cases mf <;> cases ff <;> cases lf <;>
    cases hf <;> rfl

/-- C2, counterexample: with full_scale_max 100, a pressure reading of 96
(at least 0.95 times full scale) exactly 30 seconds after the last shutoff
request enqueues nothing, because the code requires strictly more than 30
elapsed seconds — refuting the claim that a shutoff is enqueued whenever at
least 30 seconds have elapsed. -/
theorem C2_counterexample :
    (96 : ℚ) ≥ 0.95 * 100 ∧ (1030 : ℚ) - 1000 ≥ 30 ∧
    putsOf (TestRig.do_supervisory_control_iter 100 (some (mkSnapLow 96))
      1030 1000).1 = [] := by
  refine ⟨by norm_num, by norm_num, ?_⟩
  simp only [TestRig.do_supervisory_control_iter, mkSnapLow]
  rw [if_pos (by norm_num), if_neg (by norm_num)]
  rfl

/-- C2, amended: on a supervisory tick with a Snapshot present and a low_dp
pressure reading available, a shutoff event with value 0 and retry true is
enqueued exactly when the reading is at least 0.95 times the configured
full_scale_max and strictly more than 30 seconds have elapsed since the
last enqueued shutoff request; and concretely, with full_scale_max 100 and
readings of 96 at clock 1000, 1010 and 1031 (the monitor having started
with its last-request time at 0), exactly one shutoff event is enqueued at
1000, none at 1010, and a second one at 1031. -/
theorem C2_amended_debounce :
    (∀ fsm p now last : ℚ,
      putsOf (TestRig.do_supervisory_control_iter fsm (some (mkSnapLow p))
          now last).1 =
        if 0.95 * fsm ≤ p ∧ 30 < now - last then
          [SupEffect.put 0 true (Int.floor now)]
        else []) ∧
    runSup 100 0 [(some (mkSnapLow 96), 1000), (some (mkSnapLow 96), 1010),
        (some (mkSnapLow 96), 1031)] =
      [[.put 0 true 1000, .sleep 1], [.sleep 1],
       [.put 0 true 1031, .sleep 1]] := by
  constructor
  · intro fsm p now last
    have hsh : fsm - fsm * (0.05 : ℚ) = 0.95 * fsm := by ring
    by_cases h1 : (0.95 : ℚ) * fsm ≤ p <;>
      by_cases h2 : (30 : ℚ) < now - last <;>
      simp [TestRig.do_supervisory_control_iter, mkSnapLow, putsOf, hsh,
            h1, h2]
  · simp only [runSup, supIter1000, supIter1010, supIter1031]

/-- C3: after a transport-level serial error on one attempt, the next
attempt does NOT reopen the connection: the source clears self._ser but
only calls _ensure_open before the loop, so the following attempt
dereferences None, hits the blanket except arm, and query returns None
immediately — even though the device would have answered the retry.  The
trace shows the AttributeError iteration and contains no reopen.  A timeout
alone, by contrast, keeps the connection and the retry succeeds. -/
theorem C3_serial_error_aborts_query :
    (SimpleSerialDevice.query true 2 [.serialErr, .success "OK\r\n"]).1 =
      none ∧
    (SimpleSerialDevice.query true 2 [.serialErr, .success "OK\r\n"]).2 =
      [.write, .sleepBackoff, .attrError] ∧
    QAct.reopen ∉ (SimpleSerialDevice.query true 2
      [.serialErr, .success "OK\r\n"]).2 ∧
    (SimpleSerialDevice.query true 2 [.timeout, .success "OK\r\n"]).1 =
      some "OK" := by
  refine ⟨rfl, rfl, by decide, rfl⟩

/-- C4: with max_retries 2, two consecutive timeouts followed by a success
return the success payload (with the trailing CRLF stripped); with
max_retries 1 two consecutive timeouts return None; in general the loop
enters at most retries + 1 attempts; and the trace of the first scenario
shows the fixed backoff sleep between consecutive attempts. -/
theorem C4_retry_bound :
    (SimpleSerialDevice.query true 2
      [.timeout, .timeout, .success "OK\r\n"]).1 = some "OK" ∧
    (SimpleSerialDevice.query true 1 [.timeout, .timeout]).1 = none ∧
    (∀ (openOk : Bool) (r : ℕ) (script : List Outcome),
      countAttempts (SimpleSerialDevice.query openOk r script).2 ≤ r + 1) ∧
    (SimpleSerialDevice.query true 2
      [.timeout, .timeout, .success "OK\r\n"]).2 =
      [.write, .sleepBackoff, .write, .sleepBackoff, .write] := by
  refine ⟨rfl, rfl, ?_, rfl⟩
  intro openOk r script
  cases openOk with
  | false => simp [SimpleSerialDevice.query, countAttempts]
  | true =>
    simpa [SimpleSerialDevice.query] using
      queryLoop_attempts_le (r + 1) true script

set_option maxRecDepth 40000 in
/-- C5, counterexample: the schedule in which call B runs its whole attempt
between call A's two attempts is a genuine interleaving of the two calls,
respects the lock discipline (the lock is acquired inside the per-attempt
loop and released between attempts), and violates whole-cycle exclusivity:
B's write begins before A's complete response cycle (through its last retry
attempt) has finished. -/
theorem C5_counterexample :
    crossSchedule ∈ interleavings (taskSeq .A 2) (taskSeq .B 1) ∧
    lockValid none crossSchedule = true ∧
    wholeCycleExclusive crossSchedule = false := by
  decide

set_option maxRecDepth 40000 in
/-- C5, amended: over every lock-valid interleaving of a two-attempt query
call with a one-attempt query call, no event of one call ever falls between
another call's write and that write's response read (per-attempt atomicity,
enforced by the lock held around each write/read pair); but there exists a
lock-valid interleaving in which the second call's write begins before the
first call's complete response cycle has finished. -/
theorem C5_amended_attempt_atomicity :
    ((interleavings (taskSeq .A 2) (taskSeq .B 1)).all fun s =>
      !lockValid none s || atomicWithin none s) = true ∧
    ((interleavings (taskSeq .A 2) (taskSeq .B 1)).any fun s =>
      lockValid none s && !wholeCycleExclusive s) = true := by
  decide

/-- C6: the nine-token example line decodes to the claimed field values, and
a line with fewer than 4 tokens raises ValueError; but a line with exactly
4 tokens does NOT decode successfully: the dataclass post-init calls
float(None) on the absent mass-flow token and raises TypeError, which the
post-init (catching only ValueError) lets escape — the code contradicts its
own explicit minimum-4-token guard. -/
theorem C6_massflow_decode :
    AlicatMassFlowDF.parse_line
        "A +001.23 +020.00 +045.00 +1000.00 +1000.00 +12500.0 Air HLD" =
      .ok ⟨"A", some ((123 : ℚ) / 100), some 20, some 45, some 1000,
           some 1000, some 12500, some "Air", some "HLD"⟩ ∧
    AlicatMassFlowDF.parse_line "A +001.23 +020.00 +045.00" =
      .error .typeError ∧
    AlicatMassFlowDF.parse_line "A +001.23 +020.00" = .error .valueError := by
  refine ⟨?_, rfl, rfl⟩
  rw [show ((123 : ℚ) / 100) =
      (if false then -1 else 1) * ((123 : ℕ) : ℚ) / (10 ^ (2 : ℕ) : ℚ)
      from by norm_num,
    show (20 : ℚ) =
      (if false then -1 else 1) * ((2000 : ℕ) : ℚ) / (10 ^ (2 : ℕ) : ℚ)
      from by norm_num,
    show (45 : ℚ) =
      (if false then -1 else 1) * ((4500 : ℕ) : ℚ) / (10 ^ (2 : ℕ) : ℚ)
      from by norm_num,
    show (1000 : ℚ) =
      (if false then -1 else 1) * ((100000 : ℕ) : ℚ) / (10 ^ (2 : ℕ) : ℚ)
      from by norm_num,
    show (12500 : ℚ) =
      (if false then -1 else 1) * ((125000 : ℕ) : ℚ) / (10 ^ (1 : ℕ) : ℚ)
      from by norm_num]
  rfl

/-- C7: the example telegram decodes to header st, value 123.45 (= 2469/20),
unit g; a line in which the telegram pattern does not occur fails to
decode; every successful decode has its header and unit inside the closed
enumerations; and every pattern match has length 15, so the wrong-length
failure branch is unreachable. -/
theorem C7_scale_decode :
    ADEK30KL_DF.parse_line "ST,+00123.45  g" =
      .ok ⟨"st", 2469 / 20, "g"⟩ ∧
    (∀ line : String, reSearch (pyLower line) = none →
      exceptOk (ADEK30KL_DF.parse_line line) = false) ∧
    (∀ (line : String) (df : ADEK30KL_DF),
      ADEK30KL_DF.parse_line line = .ok df →
        df.header ∈ headerValues ∧ df.unit ∈ unitValues) ∧
    (∀ (line : String) (g : List Char),
      reSearch (pyLower line) = some g → g.length = 15) := by
  refine ⟨?_, ?_, ?_, ?_⟩
  · rw [show (2469 / 20 : ℚ) =
        (if false then -1 else 1) * ((12345 : ℕ) : ℚ) / (10 ^ (2 : ℕ) : ℚ)
        from by norm_num]
    rfl
  · intro line h
    unfold ADEK30KL_DF.parse_line
    split_ifs with he
    · rfl
    · rw [h]
      rfl
  · intro line df h
    unfold ADEK30KL_DF.parse_line at h
    split at h
    · exact absurd h (by simp)
    · split at h
      · exact absurd h (by simp)
      · split at h
        · exact absurd h (by simp)
        · split at h
          · exact absurd h (by simp)
          · split at h
            · rename_i hmem
              injection h with h
              subst h
              exact hmem
            · exact absurd h (by simp)
  · intro line g h
    exact reSearch_length h

/-- C7, witness: the generic parts of the decode theorem applied at concrete
lines. -/
theorem C7_scale_decode_witness :
    exceptOk (ADEK30KL_DF.parse_line "hello") = false ∧
    ("st" ∈ headerValues ∧ "g" ∈ unitValues) ∧
    ("st,+00123.45  g".data.length = 15) :=
  ⟨C7_scale_decode.2.1 "hello" rfl,
   C7_scale_decode.2.2.1 "ST,+00123.45  g" ⟨"st", 2469 / 20, "g"⟩
     C7_scale_decode.1,
   C7_scale_decode.2.2.2 "ST,+00123.45  g" ("st,+00123.45  g").data rfl⟩

/-- C8: when a ChangeSetpoint event with retry true is handled and the flow
driver's write_setpoint returns False (no response line), the handler does
NOT re-enqueue the event: TestRig.change_setpoint discards the boolean and
returns None (it has no return statement), the Python test status == False
is false for None, so the retry arm never runs — contradicting the
handler's own retry logic, which expects the boolean success flag. -/
theorem C8_setpoint_retry_dead :
    AlicatFlowController.write_setpoint none = false ∧
    TestRig.change_setpoint none = (false, none) ∧
    event_handler_iter (.changeSetpoint 5 true) none =
      { status := none, requeued := false, setpointSent := some 5,
        enqueued := [] } ∧
    (RigEvent.changeSetpoint 5 true).retry = true :=
  ⟨rfl, rfl, rfl, rfl⟩

/-- C9: in non-mock mode, construction resolves each of the flow, high-dp
and low-dp roles to its dedicated link when configured, else to the shared
Alicat link when configured, and otherwise fails with a fatal error for
that role; construction succeeds if and only if every Alicat role has a
dedicated or shared link; the scale always gets its own dedicated link; and
any configuration passing the TestRigConfig post-init check constructs
successfully. -/
theorem C9_transport_resolution :
    ∀ (m : String) (fs hs ls ss : Option String),
      (exceptOk (TestRig.load_real_devices m fs hs ls ss) = true ↔
        ((fs.isSome = true ∨ ss.isSome = true) ∧
         (hs.isSome = true ∨ ss.isSome = true) ∧
         (ls.isSome = true ∨ ss.isSome = true))) ∧
      (((fs.isSome = true ∨ ss.isSome = true) ∧
        (hs.isSome = true ∨ ss.isSome = true) ∧
        (ls.isSome = true ∨ ss.isSome = true)) →
        TestRig.load_real_devices m fs hs ls ss =
          .ok ⟨.own,
               if fs.isSome then .own else .shared,
               if hs.isSome then .own else .shared,
               if ls.isSome then .own else .shared⟩) ∧
      (TestRigConfig.post_init_ok fs hs ls ss = true →
        exceptOk (TestRig.load_real_devices m fs hs ls ss) = true) := by
  intro m fs hs ls ss
  cases fs <;> cases hs <;> cases ls <;> cases ss <;>
    simp [TestRig.load_real_devices, TestRigConfig.post_init_ok, exceptOk]

/-- C9, witness: the resolution theorem applied to a configuration with a
dedicated high-dp serial, a shared Alicat serial, and no dedicated flow or
low-dp serial. -/
theorem C9_transport_resolution_witness :
    exceptOk (TestRig.load_real_devices "p" none (some "h") none
      (some "s")) = true ∧
    TestRig.load_real_devices "p" none (some "h") none (some "s") =
      .ok ⟨.own, .shared, .own, .shared⟩ := by
  have h := C9_transport_resolution "p" none (some "h") none (some "s")
  refine ⟨h.2.2 (by decide), ?_⟩
  have h2 := h.2.1 (by simp)
  simpa using h2

/-- C10: when no Snapshot has been installed yet, an iteration of the
supervisory loop body performs no awaited effect at all (the continue runs
before both the queue put and the 1-second sleep); once a Snapshot exists,
every iteration ends with the 1-second sleep. -/
theorem C10_no_suspension_before_snapshot :
    (∀ fsm now last : ℚ,
      TestRig.do_supervisory_control_iter fsm none now last = ([], last)) ∧
    (∀ (fsm : ℚ) (m : TestRigDF) (now last : ℚ),
      ((TestRig.do_supervisory_control_iter fsm (some m) now last).1).getLast?
        = some (.sleep 1)) := by
  constructor
  · intro fsm now last
    rfl
  · intro fsm m now last
    unfold TestRig.do_supervisory_control_iter
    rcases m with ⟨t, ms, fl, ld, hd⟩
    rcases ld with _ | ⟨uid, pr⟩
    · rfl
    · rcases pr with _ | p
      · rfl
      · dsimp only
        split_ifs <;> rfl

end FlowRig
